import Mathlib

/-!
Shallow embedding of the Lightdash Terraform provider's resource-reconciler
logic (terraform-provider-lightdash): the `lightdash_project` resource
lifecycle (Create / Read / Update / Delete / ImportState), the project and
personal-access-token API client functions, and the
`lightdash_personal_access_tokens` data source.

Go strings are Lean `String`s, Go pointers (`*string`, `*int`, nullable
fields with `omitempty`) are `Option`s, and the tri-state Terraform
framework attribute values (`types.String`, `types.Int64`) are a dedicated
inductive with null / unknown / known states.  Fallible Go calls returning
`(T, error)` are `Except String T`.  The HTTP transport (`doRequest`) and
the Go standard library JSON decoder are external collaborators and are
passed in as explicit oracles; every remote call an operation performs is
recorded in an `ApiCall` trace so frame properties ("performs no remote
call") are provable.
-/

namespace Lightdash

/-- Tri-state value of a Terraform framework string attribute
(`types.String`): null, unknown, or a known string. -/
inductive TFString where
  | null
  | unknown
  | known (s : String)
deriving DecidableEq, Repr

/-- Go `types.String.IsNull`: true only in the null state. -/
def TFString.isNull : TFString → Bool
  | .null => true
  | _ => false

/-- Go `types.String.ValueString`: the known value, or `""` for null/unknown. -/
def TFString.valueString : TFString → String
  | .known s => s
  | _ => ""

/-- Tri-state value of a Terraform framework int64 attribute
(`types.Int64`). -/
inductive TFInt64 where
  | null
  | unknown
  | known (n : Int)
deriving DecidableEq, Repr

/-- Go `types.Int64.IsNull`. -/
def TFInt64.isNull : TFInt64 → Bool
  | .null => true
  | _ => false

/-- Go `types.Int64.ValueInt64`: the known value, or `0` for null/unknown. -/
def TFInt64.valueInt64 : TFInt64 → Int
  | .known n => n
  | _ => 0

/-- Severity of a Terraform diagnostic. -/
inductive Severity where
  | error
  | warning
deriving DecidableEq, Repr

/-- A Terraform diagnostic as produced by `Diagnostics.AddError` /
`Diagnostics.AddWarning`: a severity, a summary and a detail message. -/
structure Diagnostic where
  severity : Severity
  summary : String
  detail : String
deriving DecidableEq, Repr

/-- Go `Diagnostics.HasError`: whether any accumulated diagnostic is an
error. -/
def hasError (diags : List Diagnostic) : Bool :=
  diags.any (fun d => d.severity = Severity.error)

/-- A JSON value, the target of Go `encoding/json` marshalling.  An object
is a list of key/value pairs in the order Go emits struct fields
(declaration order, with `omitempty` fields dropped). -/
inductive JVal where
  | str (s : String)
  | num (n : Int)
  | jbool (b : Bool)
  | jnull
  | arr (elems : List JVal)
  | obj (fields : List (String × JVal))

/-- A decoded JSON object, as Go unmarshals into
`map[string]interface\x7b\x7d`. -/
def JObj := List (String × JVal)

/-- Serialization of an optional (`omitempty`, pointer-typed) string struct
field: omitted when the pointer is nil, present otherwise. -/
def optStrField (key : String) : Option String → List (String × JVal)
  | none => []
  | some v => [(key, JVal.str v)]

/-- Serialization of an optional (`omitempty`, pointer-typed) integer
struct field. -/
def optIntField (key : String) : Option Int → List (String × JVal)
  | none => []
  | some v => [(key, JVal.num v)]

/-- Serialization of an optional (`omitempty`, pointer-typed) boolean
struct field. -/
def optBoolField (key : String) : Option Bool → List (String × JVal)
  | none => []
  | some v => [(key, JVal.jbool v)]

/-! ## Wire models (internal/lightdash/models) -/

/-- Go `models.DbtProjectTypeGithub`. -/
def dbtProjectTypeGithub : String := "github"

/-- Go `models.DbtGithubProjectConfig` (internal/lightdash/models/project.go):
GitHub dbt project configuration.  Pointer fields carry `omitempty`. -/
structure DbtGithubProjectConfig where
  type : String
  authorizationMethod : String
  personalAccessToken : Option String := none
  installationID : Option String := none
  repository : String
  branch : String
  projectSubPath : String
  hostDomain : Option String := none
  target : Option String := none
  environment : List JVal := []
  selector : Option String := none

/-- Go `encoding/json` marshalling of `DbtGithubProjectConfig`, following
the struct tags: snake_case keys, `omitempty` on the pointer and slice
fields, fields in declaration order. -/
def DbtGithubProjectConfig.toJsonFields (c : DbtGithubProjectConfig) :
    List (String × JVal) :=
  [("type", JVal.str c.type),
   ("authorization_method", JVal.str c.authorizationMethod)]
  ++ optStrField "personal_access_token" c.personalAccessToken
  ++ optStrField "installation_id" c.installationID
  ++ [("repository", JVal.str c.repository),
      ("branch", JVal.str c.branch),
      ("project_sub_path", JVal.str c.projectSubPath)]
  ++ optStrField "host_domain" c.hostDomain
  ++ optStrField "target" c.target
  ++ (if c.environment.isEmpty then [] else [("environment", JVal.arr c.environment)])
  ++ optStrField "selector" c.selector

/-- Modelled from the spec: `models.BigQueryCredentials` /
`models.WarehouseCredentials` is not among the sources; its fields are
reconstructed from how `projectResource.Create` populates it (type,
project, dataset, keyfile contents, authentication type, location,
timeouts, billing limits, priority, retries, start of week), with the
pointer-typed fields optional. -/
structure BigQueryCredentials where
  type : String
  project : String
  dataset : Option String := none
  keyfileContents : JObj := []
  authenticationType : Option String := none
  location : Option String := none
  timeoutSeconds : Option Int := none
  maximumBytesBilled : Option Int := none
  priority : Option String := none
  retries : Option Int := none
  startOfWeek : Option Int := none

/-- Modelled from the spec: serialization of the warehouse credentials
(struct tags not among the sources) — fields explicitly set are
serialized, absent optional fields are omitted, not defaulted. -/
def BigQueryCredentials.toJsonFields (c : BigQueryCredentials) :
    List (String × JVal) :=
  [("type", JVal.str c.type),
   ("project", JVal.str c.project)]
  ++ optStrField "dataset" c.dataset
  ++ [("keyfileContents", JVal.obj c.keyfileContents)]
  ++ optStrField "authenticationType" c.authenticationType
  ++ optStrField "location" c.location
  ++ optIntField "timeoutSeconds" c.timeoutSeconds
  ++ optIntField "maximumBytesBilled" c.maximumBytesBilled
  ++ optStrField "priority" c.priority
  ++ optIntField "retries" c.retries
  ++ optIntField "startOfWeek" c.startOfWeek

/-- Go `models.Project` (internal/lightdash/models/project.go): the project
record carried in the `CreateProjectV1` response. -/
structure Project where
  organizationUuid : String
  projectUuid : String
  name : String
  type : String
  dbtConnection : Option DbtGithubProjectConfig := none
  dbtVersion : String
  organizationWarehouseCredentialsUUID : Option String := none
  warehouseConnection : Option BigQueryCredentials := none
  upstreamProjectUUID : Option String := none
  pinnedListUUID : Option String := none
  schedulerTimezone : Option String := none

/-- Go `models.CreateProject` (internal/lightdash/models/project.go): the
request body for creating a project.  Note that `dbtConnection` has no
`omitempty` tag while the other pointer fields do. -/
structure CreateProject where
  name : String
  type : String
  dbtConnection : Option DbtGithubProjectConfig := none
  dbtVersion : String
  organizationWarehouseCredentialsUUID : Option String := none
  warehouseConnection : Option BigQueryCredentials := none
  upstreamProjectUUID : Option String := none
  copyWarehouseConnectionFromUpstreamProject : Option Bool := none

/-- Go `encoding/json` marshalling of `models.CreateProject`, following
the struct tags in internal/lightdash/models/project.go: camelCase keys,
`omitempty` on every pointer field except `dbtConnection` (which is
serialized as JSON null when nil). -/
def CreateProject.toJsonFields (p : CreateProject) : List (String × JVal) :=
  [("name", JVal.str p.name),
   ("type", JVal.str p.type),
   ("dbtConnection",
     match p.dbtConnection with
     | none => JVal.jnull
     | some c => JVal.obj c.toJsonFields),
   ("dbtVersion", JVal.str p.dbtVersion)]
  ++ optStrField "organizationWarehouseCredentialsUuid" p.organizationWarehouseCredentialsUUID
  ++ (match p.warehouseConnection with
      | none => []
      | some w => [("warehouseConnection", JVal.obj w.toJsonFields)])
  ++ optStrField "upstreamProjectUuid" p.upstreamProjectUUID
  ++ optBoolField "copyWarehouseConnectionFromUpstreamProject" p.copyWarehouseConnectionFromUpstreamProject

/-- Modelled from the spec: the project record returned by
`Client.GetProjectV1` (a direct GET-by-UUID; its defining file is not
among the sources).  Its fields are reconstructed from the ones
`projectResource.Read` and `projectResource.ImportState` consume:
`OrganizationUUID`, `ProjectUUID`, `ProjectName`, `ProjectType`,
`DbtVersion`, and the two nullable UUID fields. -/
structure RemoteProject where
  organizationUuid : String
  projectUuid : String
  projectName : String
  projectType : String
  dbtVersion : String
  organizationWarehouseCredentialsUUID : Option String := none
  upstreamProjectUUID : Option String := none
deriving DecidableEq, Repr

/-- Modelled from the spec: `models.PersonalAccessToken` (its defining
file is not among the sources); fields reconstructed from the ones the
personal-access-tokens data source consumes: UUID, description, creation
timestamp, and three nullable timestamps. -/
structure PersonalAccessToken where
  uuid : String
  description : String
  createdAt : String
  expiresAt : Option String := none
  rotatedAt : Option String := none
  lastUsedAt : Option String := none
deriving DecidableEq, Repr

/-- Modelled from the spec: `models.PersonalAccessTokenWithToken` (its
defining file is not among the sources) — the token record with the
secret token value, returned by `CreatePersonalAccessTokenV1`; the only
field the sources consume is `UUID`. -/
structure PersonalAccessTokenWithToken where
  uuid : String
  token : String := ""
  description : String := ""
  createdAt : String := ""
  expiresAt : Option String := none
deriving DecidableEq, Repr

/-- Modelled from the spec: `models.CreatePersonalAccessToken` (its
defining file is not among the sources) — the request body for creating a
personal access token: a description and an optional expiration. -/
structure CreatePersonalAccessToken where
  description : String
  expiresAt : Option String := none
deriving DecidableEq, Repr

/-! ## Provider state models (internal/provider/resource_lightdash_project.go) -/

/-- Go `dbtConnectionModel`: the dbt connection nested attribute object. -/
structure DbtConnectionModel where
  type : TFString
  authorizationMethod : TFString
  personalAccessToken : TFString
  repository : TFString
  branch : TFString
  projectSubPath : TFString
  hostDomain : TFString
  target : TFString
deriving DecidableEq, Repr

/-- Go `warehouseConnectionModel`: the warehouse connection nested attribute
object. -/
structure WarehouseConnectionModel where
  type : TFString
  project : TFString
  dataset : TFString
  keyfileContents : TFString
  authenticationType : TFString
  location : TFString
  timeoutSeconds : TFInt64
  maximumBytesBilled : TFInt64
  priority : TFString
  retries : TFInt64
  startOfWeek : TFInt64
deriving DecidableEq, Repr

/-- Go `projectResourceModel`: the `lightdash_project` resource data model. -/
structure ProjectResourceModel where
  id : TFString
  organizationUuid : TFString
  projectUuid : TFString
  name : TFString
  type : TFString
  dbtVersion : TFString
  dbtConnection : Option DbtConnectionModel
  organizationWarehouseCredentialsUuid : TFString
  warehouseConnection : Option WarehouseConnectionModel
  upstreamProjectUuid : TFString
deriving DecidableEq, Repr

/-- Declarative markers of one attribute in the resource schema. -/
structure AttributeSchema where
  name : String
  required : Bool := false
  optional : Bool := false
  computed : Bool := false
  sensitive : Bool := false
  requiresReplace : Bool := false
  useStateForUnknown : Bool := false
deriving DecidableEq, Repr

/-- The top-level attributes of the `lightdash_project` schema
(`projectResource.Schema`), with their plan modifiers: `organization_uuid`
and `type` carry `stringplanmodifier.RequiresReplace`, the two computed
attributes carry `UseStateForUnknown`. -/
def projectResourceSchemaAttributes : List AttributeSchema :=
  [{ name := "id", computed := true, useStateForUnknown := true },
   { name := "organization_uuid", required := true, requiresReplace := true },
   { name := "project_uuid", computed := true, useStateForUnknown := true },
   { name := "name", required := true },
   { name := "type", required := true, requiresReplace := true },
   { name := "dbt_version", required := true },
   { name := "dbt_connection", required := true },
   { name := "organization_warehouse_credentials_uuid", optional := true },
   { name := "warehouse_connection", optional := true },
   { name := "upstream_project_uuid", optional := true }]

/-- Whether an attribute of the `lightdash_project` schema is flagged
replace-on-change. -/
def projectAttrRequiresReplace (attr : String) : Bool :=
  (projectResourceSchemaAttributes.find? (fun a => a.name = attr)).elim
    false (fun a => a.requiresReplace)

/-! ## API client (internal/lightdash/api) -/

/-- One remote call issued through the shared transport handle, recorded
for frame reasoning. -/
inductive ApiCall where
  | createProject (body : List (String × JVal))
  | getProject (projectUuid : String)
  | createPersonalAccessToken (body : List (String × JVal))
  | listPersonalAccessTokens

/-- Go `CreateProjectV1Results` (internal/lightdash/api/create_project_v1.go). -/
structure CreateProjectV1Results where
  hasContentCopy : Bool := false
  contentCopyError : Option String := none
  project : Project

/-- Go `CreateProjectV1Response` (internal/lightdash/api/create_project_v1.go). -/
structure CreateProjectV1Response where
  results : CreateProjectV1Results
  status : String

/-- Go `Client.CreateProjectV1` (internal/lightdash/api/create_project_v1.go).
`doRequest` is the transport oracle (`Client.doRequest`: returns the
response body on a 2xx status, an error otherwise) and `unmarshal` the Go
JSON decoder oracle for the response type.  After a successful exchange
and decode, an empty project UUID in the response is rejected. -/
def Client.CreateProjectV1
    (doRequest : List (String × JVal) → Except String String)
    (unmarshal : String → Except String CreateProjectV1Response)
    (project : CreateProject) : Except String Project :=
  let marshalled := project.toJsonFields
  match doRequest marshalled with
  | Except.error e => Except.error ("request failed: " ++ e)
  | Except.ok body =>
    match unmarshal body with
    | Except.error e =>
      Except.error ("failed to unmarshal response: " ++ e ++ ", body: " ++ body)
    | Except.ok response =>
      if response.results.project.projectUuid = "" then
        Except.error "project UUID is missing in the response"
      else
        Except.ok response.results.project

/-- Go `CreatePersonalAccessTokenV1Response`
(internal/lightdash/api/create_personal_access_token_v1.go). -/
structure CreatePersonalAccessTokenV1Response where
  results : PersonalAccessTokenWithToken
  status : String

/-- Modelled from the spec: Go JSON marshalling of
`models.CreatePersonalAccessToken` (struct tags not among the sources):
the description plus the optional expiration, omitted when absent. -/
def CreatePersonalAccessToken.toJsonFields (r : CreatePersonalAccessToken) :
    List (String × JVal) :=
  [("description", JVal.str r.description)] ++ optStrField "expiresAt" r.expiresAt

/-- Go `Client.CreatePersonalAccessTokenV1`
(internal/lightdash/api/create_personal_access_token_v1.go).  After a
successful exchange and decode, an empty token UUID in the response is
rejected. -/
def Client.CreatePersonalAccessTokenV1
    (doRequest : List (String × JVal) → Except String String)
    (unmarshal : String → Except String CreatePersonalAccessTokenV1Response)
    (request : CreatePersonalAccessToken) :
    Except String PersonalAccessTokenWithToken :=
  let marshalled := request.toJsonFields
  match doRequest marshalled with
  | Except.error e =>
    Except.error ("error performing POST request for personal access token: " ++ e)
  | Except.ok body =>
    match unmarshal body with
    | Except.error e =>
      Except.error ("error unmarshalling response for personal access token: "
        ++ e ++ ", body: " ++ body)
    | Except.ok response =>
      if response.results.uuid = "" then
        Except.error "token UUID is missing in the response"
      else
        Except.ok response.results

/-! ## Composite resource ID (format and parse) -/

/-- Go `getProjectResourceId`: formats the composite resource ID
`organizations/<organization_uuid>/projects/<project_uuid>`. -/
def getProjectResourceId (organizationUUID : String) (projectUUID : String) :
    String :=
  "organizations/" ++ organizationUUID ++ "/projects/" ++ projectUUID

/-- The fixed pattern `extractProjectResourceId` matches import IDs
against. -/
def orgProjectsPattern : String :=
  "^organizations/([^/]+)/projects/([^/]+)$"

/-- Strips a literal character sequence from the front of a list; `none`
when the list does not start with it. -/
def listStrip : List Char → List Char → Option (List Char)
  | [], s => some s
  | _ :: _, [] => none
  | p :: ps, c :: cs => if c = p then listStrip ps cs else none

/-- Splits a character list at the first slash: the longest slash-free
front segment, and the remainder (which is empty or starts with the
slash). -/
def spanNoSlash : List Char → List Char × List Char
  | [] => ([], [])
  | c :: cs =>
    if c = '/' then ([], c :: cs)
    else
      let r := spanNoSlash cs
      (c :: r.1, r.2)

/-- Semantics of the Go regular expression
`^organizations/([^/]+)/projects/([^/]+)$` on a character list: the two
capture groups when the whole input matches, `none` otherwise. -/
def matchOrgProjectsChars (s : List Char) : Option (List Char × List Char) :=
  match listStrip "organizations/".data s with
  | none => none
  | some rest =>
    let org := (spanNoSlash rest).1
    let rest1 := (spanNoSlash rest).2
    if org.isEmpty then none
    else
      match listStrip "/projects/".data rest1 with
      | none => none
      | some rest2 =>
        let proj := (spanNoSlash rest2).1
        let rest3 := (spanNoSlash rest2).2
        if proj.isEmpty then none
        else if rest3.isEmpty then some (org, proj) else none

/-- The two capture groups of the fixed pattern on a string input. -/
def matchOrgProjectsId (input : String) : Option (String × String) :=
  (matchOrgProjectsChars input.data).map
    (fun g => (String.mk g.1, String.mk g.2))

/-- Modelled from the spec: the regex capture helper `extractStrings`
(its defining file is not among the sources) applied to the fixed
pattern — returns the capture groups, or a parse error naming the
expected shape. -/
def extractStringsOrgProjects (input : String) :
    Except String (String × String) :=
  match matchOrgProjectsId input with
  | some groups => Except.ok groups
  | none =>
    Except.error ("the input does not match the pattern " ++ orgProjectsPattern)

/-- Go `extractProjectResourceId`
(internal/provider/resource_lightdash_project.go): parses a composite
project resource ID via the fixed pattern, wrapping parse failures. -/
def extractProjectResourceId (input : String) :
    Except String (String × String) :=
  match extractStringsOrgProjects input with
  | Except.error e => Except.error ("could not extract resource ID: " ++ e)
  | Except.ok groups => Except.ok groups

/-! ## Resource lifecycle operations
(internal/provider/resource_lightdash_project.go) -/

/-- Builds the dbt connection wire config from the plan
(`projectResource.Create`, dbt connection block): required fields are
copied, the three nullable fields (`personal_access_token`,
`host_domain`, `target`) become pointers only when non-null in the
plan. -/
def buildDbtConnection (plan : ProjectResourceModel) :
    Option DbtGithubProjectConfig :=
  plan.dbtConnection.map fun d =>
    { type := dbtProjectTypeGithub
      authorizationMethod := d.authorizationMethod.valueString
      repository := d.repository.valueString
      branch := d.branch.valueString
      projectSubPath := d.projectSubPath.valueString
      personalAccessToken :=
        if d.personalAccessToken.isNull then none
        else some d.personalAccessToken.valueString
      hostDomain :=
        if d.hostDomain.isNull then none else some d.hostDomain.valueString
      target := if d.target.isNull then none else some d.target.valueString }

/-- Builds the warehouse connection wire config from the plan block and
the decoded keyfile map (`projectResource.Create`, warehouse connection
block): each nullable plan field becomes a pointer only when non-null;
`priority` is lowercased. -/
def buildWarehouseConnection (wc : WarehouseConnectionModel)
    (keyfileMap : JObj) : BigQueryCredentials :=
  { type := wc.type.valueString
    project := wc.project.valueString
    keyfileContents := keyfileMap
    dataset := if wc.dataset.isNull then none else some wc.dataset.valueString
    authenticationType :=
      if wc.authenticationType.isNull then none
      else some wc.authenticationType.valueString
    location :=
      if wc.location.isNull then none else some wc.location.valueString
    timeoutSeconds :=
      if wc.timeoutSeconds.isNull then none
      else some wc.timeoutSeconds.valueInt64
    maximumBytesBilled :=
      if wc.maximumBytesBilled.isNull then none
      else some wc.maximumBytesBilled.valueInt64
    priority :=
      if wc.priority.isNull then none
      else some wc.priority.valueString.toLower
    retries := if wc.retries.isNull then none else some wc.retries.valueInt64
    startOfWeek :=
      if wc.startOfWeek.isNull then none else some wc.startOfWeek.valueInt64 }

/-- The diagnostic `projectResource.Create` raises when the keyfile
contents fail to parse as JSON. -/
def keyfileParseDiagnostic (msg : String) : Diagnostic :=
  { severity := Severity.error
    summary := "Error parsing keyfile_contents"
    detail := "Could not parse keyfile_contents as JSON: " ++ msg }

/-- The request-building phase of `projectResource.Create` (lines before
the `CreateProjectV1` call): the dbt connection, the optional
organization warehouse credentials UUID, the optional warehouse
connection (whose `keyfile_contents` is first parsed as JSON via the
`parseJson` oracle for Go `json.Unmarshal` into a map — a parse failure
aborts with a user-facing diagnostic), and the optional upstream project
UUID. -/
def buildCreateProjectRequest (parseJson : String → Except String JObj)
    (plan : ProjectResourceModel) : Except Diagnostic CreateProject :=
  match plan.warehouseConnection with
  | none =>
    Except.ok
      { name := plan.name.valueString
        type := plan.type.valueString
        dbtVersion := plan.dbtVersion.valueString
        dbtConnection := buildDbtConnection plan
        organizationWarehouseCredentialsUUID :=
          if plan.organizationWarehouseCredentialsUuid.isNull then none
          else some plan.organizationWarehouseCredentialsUuid.valueString
        upstreamProjectUUID :=
          if plan.upstreamProjectUuid.isNull then none
          else some plan.upstreamProjectUuid.valueString }
  | some wc =>
    match parseJson wc.keyfileContents.valueString with
    | Except.error msg => Except.error (keyfileParseDiagnostic msg)
    | Except.ok keyfileMap =>
      Except.ok
        { name := plan.name.valueString
          type := plan.type.valueString
          dbtVersion := plan.dbtVersion.valueString
          dbtConnection := buildDbtConnection plan
          organizationWarehouseCredentialsUUID :=
            if plan.organizationWarehouseCredentialsUuid.isNull then none
            else some plan.organizationWarehouseCredentialsUuid.valueString
          warehouseConnection := some (buildWarehouseConnection wc keyfileMap)
          upstreamProjectUUID :=
            if plan.upstreamProjectUuid.isNull then none
            else some plan.upstreamProjectUuid.valueString }

/-- Outcome of `projectResource.Create`: the diagnostics, the state
written (none when the operation errored before `State.Set`), and the
trace of remote calls. -/
structure CreateOutcome where
  diagnostics : List Diagnostic
  newState : Option ProjectResourceModel
  apiCalls : List ApiCall

/-- Go `projectResource.Create`: builds the request from the plan (aborting
on a keyfile parse failure before any transport call), issues
`CreateProjectV1` through the `client` oracle, and on success writes the
plan back with the computed composite ID and the server-assigned project
UUID. -/
def projectResource.Create (parseJson : String → Except String JObj)
    (client : CreateProject → Except String Project)
    (plan : ProjectResourceModel) : CreateOutcome :=
  match buildCreateProjectRequest parseJson plan with
  | Except.error d => { diagnostics := [d], newState := none, apiCalls := [] }
  | Except.ok createReq =>
    match client createReq with
    | Except.error e =>
      { diagnostics :=
          [{ severity := Severity.error
             summary := "Error creating project"
             detail := "Could not create project, unexpected error: " ++ e }]
        newState := none
        apiCalls := [ApiCall.createProject createReq.toJsonFields] }
    | Except.ok createdProject =>
      let organizationUUID := plan.organizationUuid.valueString
      let stateId := getProjectResourceId organizationUUID createdProject.projectUuid
      { diagnostics := []
        newState := some { plan with
          id := TFString.known stateId
          projectUuid := TFString.known createdProject.projectUuid }
        apiCalls := [ApiCall.createProject createReq.toJsonFields] }

/-- Outcome of `projectResource.Read`: the diagnostics, the refreshed
state written (none when the read errored), whether the resource was
signalled absent (`State.RemoveResource` — which `projectResource.Read`
never calls), and the trace of remote calls. -/
structure ReadOutcome where
  diagnostics : List Diagnostic
  newState : Option ProjectResourceModel
  removed : Bool
  apiCalls : List ApiCall

/-- Go `projectResource.Read`: fetches the project by UUID through the
`getProject` oracle (`Client.GetProjectV1`).  Any fetch error becomes an
error diagnostic.  On success it rewrites name, type and organization
UUID, rewrites the dbt version only when the server returned a non-empty
one, maps the two nullable UUIDs to value-or-null, and leaves every other
field of the prior state (id, project UUID, the whole dbt connection
block, the warehouse connection block) untouched. -/
def projectResource.Read
    (getProject : String → Except String RemoteProject)
    (state : ProjectResourceModel) : ReadOutcome :=
  match getProject state.projectUuid.valueString with
  | Except.error e =>
    { diagnostics :=
        [{ severity := Severity.error
           summary := "Error Reading project"
           detail := "Could not read project ID " ++ state.id.valueString
             ++ ": " ++ e }]
      newState := none
      removed := false
      apiCalls := [ApiCall.getProject state.projectUuid.valueString] }
  | Except.ok project =>
    { diagnostics := []
      newState := some { state with
        name := TFString.known project.projectName
        type := TFString.known project.projectType
        organizationUuid := TFString.known project.organizationUuid
        dbtVersion :=
          if project.dbtVersion ≠ "" then TFString.known project.dbtVersion
          else state.dbtVersion
        organizationWarehouseCredentialsUuid :=
          match project.organizationWarehouseCredentialsUUID with
          | some v => TFString.known v
          | none => TFString.null
        upstreamProjectUuid :=
          match project.upstreamProjectUUID with
          | some v => TFString.known v
          | none => TFString.null }
      removed := false
      apiCalls := [ApiCall.getProject state.projectUuid.valueString] }

/-- Outcome of `projectResource.Update`. -/
structure UpdateOutcome where
  diagnostics : List Diagnostic
  newState : Option ProjectResourceModel
  apiCalls : List ApiCall

/-- Go `projectResource.Update`: projects are immutable — the method exists
only to satisfy the resource interface and unconditionally raises an
error signalling that any change requires destroy-and-recreate, without
touching the transport. -/
def projectResource.Update (_plan : ProjectResourceModel)
    (_state : ProjectResourceModel) : UpdateOutcome :=
  { diagnostics :=
      [{ severity := Severity.error
         summary := "Update not supported"
         detail := "Lightdash projects are immutable. Any changes require destroying and recreating the resource." }]
    newState := none
    apiCalls := [] }

/-- Outcome of `projectResource.Delete`. -/
structure DeleteOutcome where
  diagnostics : List Diagnostic
  apiCalls : List ApiCall

/-- The warning `projectResource.Delete` surfaces. -/
def projectDeleteWarning : Diagnostic :=
  { severity := Severity.warning
    summary := "Project not deleted"
    detail := "The Lightdash project was removed from Terraform state but still exists in Lightdash. You must manually delete it from the Lightdash UI if desired." }

/-- Go `projectResource.Delete`: a deliberate no-op — it only surfaces a
warning that the remote project still exists, issuing no remote call; the
orchestrator then removes the resource from local tracking. -/
def projectResource.Delete (_state : ProjectResourceModel) : DeleteOutcome :=
  { diagnostics := [projectDeleteWarning], apiCalls := [] }

/-- Terraform plugin framework rule (external contract): after `Delete`
returns without an error diagnostic, the framework removes the resource
from local state tracking. -/
def deleteRemovesState (out : DeleteOutcome) : Bool :=
  !(hasError out.diagnostics)

/-- Outcome of `projectResource.ImportState`: the diagnostics, the
attribute paths written via `State.SetAttribute` with their values, and
the trace of remote calls. -/
structure ImportOutcome where
  diagnostics : List Diagnostic
  attributes : List (String × String)
  apiCalls : List ApiCall

/-- Go `projectResource.ImportState`: parses the composite import ID (a
parse failure is surfaced as an error before any transport call), fetches
the project by the extracted project UUID, and writes the observed
attributes; the dbt connection credentials are not returned by the API
and a warning tells the user to configure them manually. -/
def projectResource.ImportState
    (getProject : String → Except String RemoteProject)
    (reqID : String) : ImportOutcome :=
  match extractProjectResourceId reqID with
  | Except.error e =>
    { diagnostics :=
        [{ severity := Severity.error
           summary := "Error extracting resource ID"
           detail := "Could not extract resource ID, unexpected error: " ++ e }]
      attributes := []
      apiCalls := [] }
  | Except.ok groups =>
    let organizationUUID := groups.1
    let projectUUID := groups.2
    match getProject projectUUID with
    | Except.error e =>
      { diagnostics :=
          [{ severity := Severity.error
             summary := "Error Getting project"
             detail := "Could not get project with organization UUID "
               ++ organizationUUID ++ " and project UUID " ++ projectUUID
               ++ ", unexpected error: " ++ e }]
        attributes := []
        apiCalls := [ApiCall.getProject projectUUID] }
    | Except.ok importedProject =>
      { diagnostics :=
          [{ severity := Severity.warning
             summary := "DBT Connection not imported"
             detail := "The dbt connection credentials (personal_access_token, etc.) are not returned by the API for security reasons. You must manually configure these in your Terraform configuration." }]
        attributes :=
          [("id", reqID),
           ("organization_uuid", importedProject.organizationUuid),
           ("project_uuid", importedProject.projectUuid),
           ("name", importedProject.projectName),
           ("type", importedProject.projectType)]
          ++ (if importedProject.dbtVersion ≠ "" then
                [("dbt_version", importedProject.dbtVersion)] else [])
          ++ (match importedProject.organizationWarehouseCredentialsUUID with
              | some v => [("organization_warehouse_credentials_uuid", v)]
              | none => [])
          ++ (match importedProject.upstreamProjectUUID with
              | some v => [("upstream_project_uuid", v)]
              | none => [])
        apiCalls := [ApiCall.getProject projectUUID] }

/-! ## Personal access tokens data source (unnamed provider source) -/

/-- Go `personalAccessTokenModel`: one token entry of the data source. -/
structure PersonalAccessTokenModel where
  tokenUuid : TFString
  description : TFString
  createdAt : TFString
  expiresAt : TFString
  rotatedAt : TFString
  lastUsedAt : TFString
deriving DecidableEq, Repr

/-- Go `personalAccessTokensDataSourceModel`. -/
structure PersonalAccessTokensDataSourceModel where
  id : TFString
  tokens : List PersonalAccessTokenModel
deriving DecidableEq, Repr

/-- The per-token conversion in `personalAccessTokensDataSource.Read`:
required fields become known values, the three nullable timestamps become
value-or-null. -/
def convertToken (token : PersonalAccessToken) : PersonalAccessTokenModel :=
  { tokenUuid := TFString.known token.uuid
    description := TFString.known token.description
    createdAt := TFString.known token.createdAt
    expiresAt :=
      match token.expiresAt with
      | some v => TFString.known v
      | none => TFString.null
    rotatedAt :=
      match token.rotatedAt with
      | some v => TFString.known v
      | none => TFString.null
    lastUsedAt :=
      match token.lastUsedAt with
      | some v => TFString.known v
      | none => TFString.null }

/-- Byte-order comparison of Go strings as a total `≤` on their character
lists (UTF-8 byte order coincides with code-point order).  The data
source sorts with `sort.Slice` and the strict comparator
`tokens[i].TokenUUID < tokens[j].TokenUUID`; the sorted result is
nondecreasing in exactly this relation. -/
def charListLe : List Char → List Char → Bool
  | [], _ => true
  | _ :: _, [] => false
  | a :: as, b :: bs =>
    if a.toNat < b.toNat then true
    else if b.toNat < a.toNat then false
    else charListLe as bs

/-- The sort key relation of `personalAccessTokensDataSource.Read`:
nondecreasing token UUID. -/
def tokenUuidLe (a b : PersonalAccessTokenModel) : Bool :=
  charListLe a.tokenUuid.valueString.data b.tokenUuid.valueString.data

/-- Outcome of the data source `Read`. -/
structure DataSourceReadOutcome where
  diagnostics : List Diagnostic
  state : Option PersonalAccessTokensDataSourceModel
  apiCalls : List ApiCall

/-- Go `personalAccessTokensDataSource.Read`: lists all personal access
tokens through the `listTokens` oracle (`ListPersonalAccessTokensV1`),
converts each to its model, sorts the models by token UUID (Go
`sort.Slice` is an unstable comparison sort; modelled as `mergeSort` by
the corresponding total `≤`), and writes the fixed data source ID and the
sorted token list. -/
def personalAccessTokensDataSource.Read
    (listTokens : Unit → Except String (List PersonalAccessToken)) :
    DataSourceReadOutcome :=
  match listTokens () with
  | Except.error e =>
    { diagnostics :=
        [{ severity := Severity.error
           summary := "Unable to get personal access tokens"
           detail := e }]
      state := none
      apiCalls := [ApiCall.listPersonalAccessTokens] }
  | Except.ok tokens =>
    let fetchedTokens := (tokens.map convertToken).mergeSort tokenUuidLe
    { diagnostics := []
      state := some
        { id := TFString.known "personal-access-tokens"
          tokens := fetchedTokens }
      apiCalls := [ApiCall.listPersonalAccessTokens] }

/-! ## Concrete sample inputs used by witnesses and counterexamples -/

/-- A concrete dbt connection block with the three nullable fields null. -/
def sampleDbtConnectionModel : DbtConnectionModel :=
  { type := TFString.known "github"
    authorizationMethod := TFString.known "installation_id"
    personalAccessToken := TFString.null
    repository := TFString.known "my-org/dbt-project"
    branch := TFString.known "main"
    projectSubPath := TFString.known "/"
    hostDomain := TFString.null
    target := TFString.null }

/-- A concrete stored project state. -/
def sampleProjectState : ProjectResourceModel :=
  { id := TFString.known "organizations/org-1/projects/proj-1"
    organizationUuid := TFString.known "org-1"
    projectUuid := TFString.known "proj-1"
    name := TFString.known "Analytics Project"
    type := TFString.known "DEFAULT"
    dbtVersion := TFString.known "v1.8"
    dbtConnection := some sampleDbtConnectionModel
    organizationWarehouseCredentialsUuid := TFString.null
    warehouseConnection := none
    upstreamProjectUuid := TFString.null }

/-- A concrete remote project record as returned by GET-by-UUID. -/
def sampleRemoteProject : RemoteProject :=
  { organizationUuid := "org-1"
    projectUuid := "proj-1"
    projectName := "Analytics Project"
    projectType := "DEFAULT"
    dbtVersion := "v1.9"
    organizationWarehouseCredentialsUUID := none
    upstreamProjectUUID := some "proj-0" }

/-- A concrete warehouse connection block whose keyfile contents is not
valid JSON. -/
def sampleBadKeyfileWarehouse : WarehouseConnectionModel :=
  { type := TFString.known "bigquery"
    project := TFString.known "my-gcp-project"
    dataset := TFString.known "my_dataset"
    keyfileContents := TFString.known "not json"
    authenticationType := TFString.null
    location := TFString.null
    timeoutSeconds := TFInt64.null
    maximumBytesBilled := TFInt64.null
    priority := TFString.null
    retries := TFInt64.null
    startOfWeek := TFInt64.null }

/-- A concrete plan carrying the bad-keyfile warehouse connection. -/
def sampleBadKeyfilePlan : ProjectResourceModel :=
  { sampleProjectState with
      warehouseConnection := some sampleBadKeyfileWarehouse }

/-- A JSON-object parser oracle that rejects every input, as Go
`json.Unmarshal` does on the sample non-JSON keyfile. -/
def rejectingJsonDecoder : String → Except String JObj :=
  fun _ => Except.error "invalid character"

/-- A create-response carrying an empty project UUID despite a 2xx
exchange. -/
def sampleEmptyUuidProjectResponse : CreateProjectV1Response :=
  { results :=
      { project :=
          { organizationUuid := "org-1"
            projectUuid := ""
            name := "Analytics Project"
            type := "DEFAULT"
            dbtVersion := "v1.8" } }
    status := "ok" }

/-- A token create-response carrying an empty token UUID despite a 2xx
exchange. -/
def sampleEmptyUuidTokenResponse : CreatePersonalAccessTokenV1Response :=
  { results := { uuid := "" }
    status := "ok" }

/-- A concrete plan with the upstream project UUID set and every other
optional field null, as in the preview-project scenario. -/
def samplePreviewPlan : ProjectResourceModel :=
  { id := TFString.unknown
    organizationUuid := TFString.known "org-1"
    projectUuid := TFString.unknown
    name := TFString.known "Preview Project"
    type := TFString.known "PREVIEW"
    dbtVersion := TFString.known "v1.8"
    dbtConnection := some sampleDbtConnectionModel
    organizationWarehouseCredentialsUuid := TFString.null
    warehouseConnection := none
    upstreamProjectUuid := TFString.known "proj-1" }

/-- A GET-by-UUID oracle that knows exactly the sample remote project
under UUID proj-1. -/
def sampleGetProject : String → Except String RemoteProject :=
  fun uuid =>
    if uuid = "proj-1" then Except.ok sampleRemoteProject
    else Except.error "status code: 404"

end Lightdash

namespace Lightdash

/-! ## Shared helper lemmas -/

theorem listStrip_self_append (p s : List Char) :
    listStrip p (p ++ s) = some s := by
  induction p with
  | nil => rfl
  | cons c cs ih => simp [listStrip, ih]

theorem spanNoSlash_no_slash (l : List Char) (h : '/' ∉ l) :
    spanNoSlash l = (l, []) := by
  induction l with
  | nil => rfl
  | cons c cs ih =>
    have hc : ¬ c = '/' := by
      intro hc
      exact h (by simp [hc])
    have hcs : '/' ∉ cs := fun hm => h (List.mem_cons_of_mem c hm)
    simp [spanNoSlash, hc, ih hcs]

theorem spanNoSlash_append (l r : List Char) (h : '/' ∉ l) :
    spanNoSlash (l ++ '/' :: r) = (l, '/' :: r) := by
  induction l with
  | nil => simp [spanNoSlash]
  | cons c cs ih =>
    have hc : ¬ c = '/' := by
      intro hc
      exact h (by simp [hc])
    have hcs : '/' ∉ cs := fun hm => h (List.mem_cons_of_mem c hm)
    simp [spanNoSlash, hc, ih hcs]

theorem data_ne_nil_of_ne_empty (s : String) (h : s ≠ "") : s.data ≠ [] := by
  intro hd
  apply h
  cases s with
  | mk data =>
    simp only [String.data] at hd
    simp [hd]

theorem charListLe_total (xs ys : List Char) :
    (charListLe xs ys || charListLe ys xs) = true := by
  induction xs generalizing ys with
  | nil => simp [charListLe]
  | cons a as ih =>
    cases ys with
    | nil => simp [charListLe]
    | cons b bs =>
      simp only [charListLe]
      rcases Nat.lt_trichotomy a.toNat b.toNat with h | h | h
      · simp [h]
      · simp [h, Nat.lt_irrefl, ih bs]
      · simp [h, Nat.lt_asymm h]

theorem charListLe_total_apply (a b : PersonalAccessTokenModel) :
    (tokenUuidLe a b || tokenUuidLe b a) = true :=
  charListLe_total _ _

theorem charListLe_trans (xs ys zs : List Char)
    (h1 : charListLe xs ys = true) (h2 : charListLe ys zs = true) :
    charListLe xs zs = true := by
  induction xs generalizing ys zs with
  | nil => simp [charListLe]
  | cons a as ih =>
    cases ys with
    | nil => simp [charListLe] at h1
    | cons b bs =>
      cases zs with
      | nil => simp [charListLe] at h2
      | cons c cs =>
        simp only [charListLe] at h1 h2 ⊢
        rcases Nat.lt_trichotomy a.toNat b.toNat with hab | hab | hab
        · rcases Nat.lt_trichotomy b.toNat c.toNat with hbc | hbc | hbc
          · have hac : a.toNat < c.toNat := by omega
            simp [hac]
          · have hac : a.toNat < c.toNat := by omega
            simp [hac]
          · simp [Nat.lt_asymm hbc, hbc] at h2
        · rcases Nat.lt_trichotomy b.toNat c.toNat with hbc | hbc | hbc
          · have hac : a.toNat < c.toNat := by omega
            simp [hac]
          · have hac : a.toNat = c.toNat := by omega
            have h1' : charListLe as bs = true := by
              simpa [hab, Nat.lt_irrefl] using h1
            have h2' : charListLe bs cs = true := by
              simpa [hbc, Nat.lt_irrefl] using h2
            simp [hac, Nat.lt_irrefl, ih bs cs h1' h2']
          · simp [Nat.lt_asymm hbc, hbc] at h2
        · simp [Nat.lt_asymm hab, hab] at h1

theorem charListLe_trans_apply (a b c : PersonalAccessTokenModel)
    (h1 : tokenUuidLe a b = true) (h2 : tokenUuidLe b c = true) :
    tokenUuidLe a c = true :=
  charListLe_trans _ _ _ h1 h2

/-! ## Claim theorems -/

/-- C1: For every stored project state, Delete on the lightdash_project
resource performs no remote call: it only surfaces a warning (the single
"Project not deleted" warning, no error), which lets the orchestrator
remove the project from local tracking while the remote project stays
intact. -/
theorem C1_delete_is_local_noop (state : ProjectResourceModel) :
    (projectResource.Delete state).apiCalls = [] ∧
    (projectResource.Delete state).diagnostics = [projectDeleteWarning] ∧
    projectDeleteWarning.severity = Severity.warning ∧
    hasError (projectResource.Delete state).diagnostics = false ∧
    deleteRemovesState (projectResource.Delete state) = true :=
  ⟨rfl, rfl, rfl, rfl, rfl⟩

/-- C3: Update on the lightdash_project resource (whose type and
organization_uuid attributes are flagged replace-on-change) is a hard
failure signalling that replacement is required, performs no transport
call and writes no state. -/
theorem C3_update_hard_failure (plan state : ProjectResourceModel) :
    projectAttrRequiresReplace "type" = true ∧
    projectAttrRequiresReplace "organization_uuid" = true ∧
    (projectResource.Update plan state).apiCalls = [] ∧
    (projectResource.Update plan state).newState = none ∧
    (projectResource.Update plan state).diagnostics =
      [{ severity := Severity.error
         summary := "Update not supported"
         detail := "Lightdash projects are immutable. Any changes require destroying and recreating the resource." }] ∧
    hasError (projectResource.Update plan state).diagnostics = true := by
  refine ⟨by decide, by decide, rfl, rfl, rfl, rfl⟩

/-- C2 counterexample: with a stored project state whose remote project is
not found (the GET-by-UUID transport surfaces the non-2xx not-found
response as an error), project Read returns an error diagnostic and does
not signal absence — contradicting the claim that not-found yields
"absent" and no error diagnostic. -/
theorem C2_counterexample :
    hasError (projectResource.Read
      (fun _ => Except.error "status code: 404") sampleProjectState).diagnostics
      = true ∧
    (projectResource.Read
      (fun _ => Except.error "status code: 404") sampleProjectState).removed
      = false :=
  ⟨rfl, rfl⟩

/-- C2 (amended): project Read never signals absence; whenever
GetProjectV1 fails — including when the remote project is not found,
which the transport surfaces as an error — Read returns an error
diagnostic and leaves local tracking in place. -/
theorem C2_read_error_keeps_tracking
    (getProject : String → Except String RemoteProject)
    (state : ProjectResourceModel) (e : String)
    (h : getProject state.projectUuid.valueString = Except.error e) :
    (∀ g : String → Except String RemoteProject,
      ∀ s : ProjectResourceModel, (projectResource.Read g s).removed = false) ∧
    hasError (projectResource.Read getProject state).diagnostics = true ∧
    (projectResource.Read getProject state).newState = none := by
  refine ⟨?_, ?_, ?_⟩
  · intro g s
    unfold projectResource.Read
    cases g (s.projectUuid.valueString) <;> rfl
  · unfold projectResource.Read
    rw [h]
    rfl
  · unfold projectResource.Read
    rw [h]

/-- C2 witness: the amended theorem applied to the concrete not-found
scenario. -/
theorem C2_read_error_keeps_tracking_witness :
    (fun _ : String => (Except.error "status code: 404" : Except String RemoteProject))
        sampleProjectState.projectUuid.valueString
      = Except.error "status code: 404" ∧
    (hasError (projectResource.Read
        (fun _ => Except.error "status code: 404") sampleProjectState).diagnostics
      = true ∧
     (projectResource.Read
        (fun _ => Except.error "status code: 404") sampleProjectState).newState
      = none) :=
  ⟨rfl,
   (C2_read_error_keeps_tracking
       (fun _ => Except.error "status code: 404") sampleProjectState
       "status code: 404" rfl).2⟩

/-- C9: For every project Create plan whose warehouse_connection block
carries keyfile contents the JSON decoder rejects, Create reports exactly
the user-facing "Error parsing keyfile_contents" diagnostic and returns
before any transport call, writing no state. -/
theorem C9_keyfile_parse_failure
    (parseJson : String → Except String JObj)
    (client : CreateProject → Except String Project)
    (plan : ProjectResourceModel) (wc : WarehouseConnectionModel)
    (msg : String)
    (hwc : plan.warehouseConnection = some wc)
    (hparse : parseJson wc.keyfileContents.valueString = Except.error msg) :
    projectResource.Create parseJson client plan =
      { diagnostics :=
          [{ severity := Severity.error
             summary := "Error parsing keyfile_contents"
             detail := "Could not parse keyfile_contents as JSON: " ++ msg }]
        newState := none
        apiCalls := [] } := by
  simp [projectResource.Create, buildCreateProjectRequest, hwc, hparse,
    keyfileParseDiagnostic]

/-- C9 witness: the theorem applied to the concrete plan with non-JSON
keyfile contents and the rejecting decoder. -/
theorem C9_keyfile_parse_failure_witness :
    sampleBadKeyfilePlan.warehouseConnection = some sampleBadKeyfileWarehouse ∧
    rejectingJsonDecoder sampleBadKeyfileWarehouse.keyfileContents.valueString
      = Except.error "invalid character" ∧
    projectResource.Create rejectingJsonDecoder
        (fun _ => Except.error "unused") sampleBadKeyfilePlan =
      { diagnostics :=
          [{ severity := Severity.error
             summary := "Error parsing keyfile_contents"
             detail := "Could not parse keyfile_contents as JSON: "
               ++ "invalid character" }]
        newState := none
        apiCalls := [] } :=
  ⟨rfl, rfl,
   C9_keyfile_parse_failure rejectingJsonDecoder (fun _ => Except.error "unused")
     sampleBadKeyfilePlan sampleBadKeyfileWarehouse "invalid character" rfl rfl⟩

/-- C4: For every Create call whose HTTP exchange (doRequest succeeded,
hence 2xx) and response decoding succeed, a decoded response carrying an
empty entity UUID — project UUID for CreateProjectV1, token UUID for
CreatePersonalAccessTokenV1 — makes the call return an error, so the
entity is considered not created. -/
theorem C4_empty_uuid_is_error
    (doRequestP : List (String × JVal) → Except String String)
    (unmarshalP : String → Except String CreateProjectV1Response)
    (projReq : CreateProject) (bodyP : String)
    (respP : CreateProjectV1Response)
    (doRequestT : List (String × JVal) → Except String String)
    (unmarshalT : String → Except String CreatePersonalAccessTokenV1Response)
    (tokReq : CreatePersonalAccessToken) (bodyT : String)
    (respT : CreatePersonalAccessTokenV1Response)
    (hP1 : doRequestP projReq.toJsonFields = Except.ok bodyP)
    (hP2 : unmarshalP bodyP = Except.ok respP)
    (hP3 : respP.results.project.projectUuid = "")
    (hT1 : doRequestT tokReq.toJsonFields = Except.ok bodyT)
    (hT2 : unmarshalT bodyT = Except.ok respT)
    (hT3 : respT.results.uuid = "") :
    Client.CreateProjectV1 doRequestP unmarshalP projReq =
      Except.error "project UUID is missing in the response" ∧
    Client.CreatePersonalAccessTokenV1 doRequestT unmarshalT tokReq =
      Except.error "token UUID is missing in the response" := by
  constructor
  · simp [Client.CreateProjectV1, hP1, hP2, hP3]
  · simp [Client.CreatePersonalAccessTokenV1, hT1, hT2, hT3]

/-- C4 witness: the theorem applied to concrete 2xx exchanges whose
decoded responses carry empty UUIDs. -/
theorem C4_empty_uuid_is_error_witness :
    sampleEmptyUuidProjectResponse.results.project.projectUuid = "" ∧
    sampleEmptyUuidTokenResponse.results.uuid = "" ∧
    Client.CreateProjectV1 (fun _ => Except.ok "raw-body")
        (fun _ => Except.ok sampleEmptyUuidProjectResponse)
        { name := "Analytics Project", type := "DEFAULT"
          dbtVersion := "v1.8", dbtConnection := none } =
      Except.error "project UUID is missing in the response" ∧
    Client.CreatePersonalAccessTokenV1 (fun _ => Except.ok "raw-body")
        (fun _ => Except.ok sampleEmptyUuidTokenResponse)
        { description := "CI token" } =
      Except.error "token UUID is missing in the response" := by
  refine ⟨rfl, rfl, ?_, ?_⟩
  · exact (C4_empty_uuid_is_error (fun _ => Except.ok "raw-body")
      (fun _ => Except.ok sampleEmptyUuidProjectResponse)
      { name := "Analytics Project", type := "DEFAULT"
        dbtVersion := "v1.8", dbtConnection := none } "raw-body"
      sampleEmptyUuidProjectResponse
      (fun _ => Except.ok "raw-body")
      (fun _ => Except.ok sampleEmptyUuidTokenResponse)
      { description := "CI token" } "raw-body" sampleEmptyUuidTokenResponse
      rfl rfl rfl rfl rfl rfl).1
  · exact (C4_empty_uuid_is_error (fun _ => Except.ok "raw-body")
      (fun _ => Except.ok sampleEmptyUuidProjectResponse)
      { name := "Analytics Project", type := "DEFAULT"
        dbtVersion := "v1.8", dbtConnection := none } "raw-body"
      sampleEmptyUuidProjectResponse
      (fun _ => Except.ok "raw-body")
      (fun _ => Except.ok sampleEmptyUuidTokenResponse)
      { description := "CI token" } "raw-body" sampleEmptyUuidTokenResponse
      rfl rfl rfl rfl rfl rfl).2

/-- C8: For every successful project Read, the fields the server does not
echo back — the entire dbt_connection block including the secret
personal_access_token, the warehouse_connection block, the id and the
project UUID — are retained unchanged from the prior observed state and
never nulled; Read rewrites only name, type, organization_uuid,
dbt_version (only when the server returns a non-empty value), and the two
nullable UUID fields organization_warehouse_credentials_uuid and
upstream_project_uuid. -/
theorem C8_read_preserves_unechoed_fields
    (getProject : String → Except String RemoteProject)
    (state : ProjectResourceModel) (project : RemoteProject)
    (h : getProject state.projectUuid.valueString = Except.ok project) :
    ∃ st, (projectResource.Read getProject state).newState = some st ∧
      st.dbtConnection = state.dbtConnection ∧
      st.warehouseConnection = state.warehouseConnection ∧
      st.id = state.id ∧
      st.projectUuid = state.projectUuid ∧
      st.name = TFString.known project.projectName ∧
      st.type = TFString.known project.projectType ∧
      st.organizationUuid = TFString.known project.organizationUuid ∧
      st.dbtVersion = (if project.dbtVersion ≠ "" then
        TFString.known project.dbtVersion else state.dbtVersion) ∧
      st.organizationWarehouseCredentialsUuid =
        (match project.organizationWarehouseCredentialsUUID with
         | some v => TFString.known v
         | none => TFString.null) ∧
      st.upstreamProjectUuid =
        (match project.upstreamProjectUUID with
         | some v => TFString.known v
         | none => TFString.null) := by
  unfold projectResource.Read
  rw [h]
  exact ⟨_, rfl, rfl, rfl, rfl, rfl, rfl, rfl, rfl, rfl, rfl, rfl⟩

/-- C8 witness: the theorem applied to the concrete stored state and a
concrete successful GET-by-UUID response. -/
theorem C8_read_preserves_unechoed_fields_witness :
    sampleGetProject sampleProjectState.projectUuid.valueString
      = Except.ok sampleRemoteProject ∧
    ∃ st, (projectResource.Read sampleGetProject sampleProjectState).newState
        = some st ∧
      st.dbtConnection = sampleProjectState.dbtConnection ∧
      st.warehouseConnection = sampleProjectState.warehouseConnection ∧
      st.id = sampleProjectState.id ∧
      st.projectUuid = sampleProjectState.projectUuid ∧
      st.name = TFString.known sampleRemoteProject.projectName ∧
      st.type = TFString.known sampleRemoteProject.projectType ∧
      st.organizationUuid = TFString.known sampleRemoteProject.organizationUuid ∧
      st.dbtVersion = (if sampleRemoteProject.dbtVersion ≠ "" then
        TFString.known sampleRemoteProject.dbtVersion
        else sampleProjectState.dbtVersion) ∧
      st.organizationWarehouseCredentialsUuid =
        (match sampleRemoteProject.organizationWarehouseCredentialsUUID with
         | some v => TFString.known v
         | none => TFString.null) ∧
      st.upstreamProjectUuid =
        (match sampleRemoteProject.upstreamProjectUUID with
         | some v => TFString.known v
         | none => TFString.null) :=
  ⟨rfl,
   C8_read_preserves_unechoed_fields sampleGetProject sampleProjectState
     sampleRemoteProject rfl⟩

/-- C10: For every list returned by the personal-access-tokens list
endpoint, the tokens list the data source Read writes is a permutation of
the converted listed tokens — exactly one entry per listed token — and is
pairwise nondecreasing in token UUID, regardless of the order the server
returned them in. -/
theorem C10_tokens_sorted_one_per_listed (tokens : List PersonalAccessToken) :
    ∃ st,
      (personalAccessTokensDataSource.Read
        (fun _ => Except.ok tokens)).state = some st ∧
      st.tokens.Perm (tokens.map convertToken) ∧
      st.tokens.Pairwise (fun a b => tokenUuidLe a b = true) := by
  refine ⟨_, rfl, ?_, ?_⟩
  · exact List.mergeSort_perm (tokens.map convertToken) tokenUuidLe
  · exact List.sorted_mergeSort charListLe_trans_apply charListLe_total_apply
      (tokens.map convertToken)

/-- Formatting then parsing a composite project resource ID returns the
original pair, for nonempty slash-free components (character-list
core). -/
theorem matchOrgProjectsChars_roundtrip (o p : List Char)
    (ho : o ≠ []) (hp : p ≠ []) (ho' : '/' ∉ o) (hp' : '/' ∉ p) :
    matchOrgProjectsChars
      ("organizations/".data ++ (o ++ '/' :: ("projects/".data ++ p)))
      = some (o, p) := by
  have hoe : o.isEmpty = false := by
    cases o with
    | nil => exact absurd rfl ho
    | cons c cs => rfl
  have hpe : p.isEmpty = false := by
    cases p with
    | nil => exact absurd rfl hp
    | cons c cs => rfl
  have h2 := spanNoSlash_append o ("projects/".data ++ p) ho'
  have h3 : listStrip "/projects/".data ('/' :: ("projects/".data ++ p))
      = some p :=
    listStrip_self_append "/projects/".data p
  have h4 := spanNoSlash_no_slash p hp'
  unfold matchOrgProjectsChars
  rw [listStrip_self_append]
  simp only [h2, h3, h4, hoe, hpe]
  simp

/-- Formatting then parsing a composite project resource ID returns the
original pair, for nonempty slash-free organization and project UUIDs. -/
theorem extractProjectResourceId_roundtrip (o p : String)
    (ho : o ≠ "") (hp : p ≠ "") (ho' : '/' ∉ o.data) (hp' : '/' ∉ p.data) :
    extractProjectResourceId (getProjectResourceId o p) = Except.ok (o, p) := by
  have hdata : (getProjectResourceId o p).data
      = "organizations/".data ++ (o.data ++ '/' :: ("projects/".data ++ p.data)) := by
    show ((("organizations/" ++ o) ++ "/projects/") ++ p).data = _
    rw [String.data_append, String.data_append, String.data_append]
    simp [List.append_assoc]
  have hmatch : matchOrgProjectsId (getProjectResourceId o p) = some (o, p) := by
    unfold matchOrgProjectsId
    rw [hdata, matchOrgProjectsChars_roundtrip o.data p.data
      (data_ne_nil_of_ne_empty o ho) (data_ne_nil_of_ne_empty p hp) ho' hp']
    rfl
  unfold extractProjectResourceId extractStringsOrgProjects
  rw [hmatch]

/-- C5: For every organization UUID and project UUID that are non-empty
and contain no slash, formatting the composite ID and then parsing it
returns exactly the original pair; consequently ImportState on such an ID
(with the GET-by-UUID returning the addressed project record) succeeds
without error and writes organization and project UUID attribute values
equal to the original pair. -/
theorem C5_composite_id_roundtrip (o p : String)
    (ho : o ≠ "") (hp : p ≠ "") (ho' : '/' ∉ o.data) (hp' : '/' ∉ p.data)
    (getProject : String → Except String RemoteProject) (pr : RemoteProject)
    (hpro : pr.organizationUuid = o) (hprp : pr.projectUuid = p)
    (hget : getProject p = Except.ok pr) :
    extractProjectResourceId (getProjectResourceId o p) = Except.ok (o, p) ∧
    hasError (projectResource.ImportState getProject
      (getProjectResourceId o p)).diagnostics = false ∧
    (projectResource.ImportState getProject
      (getProjectResourceId o p)).attributes.lookup "organization_uuid"
      = some o ∧
    (projectResource.ImportState getProject
      (getProjectResourceId o p)).attributes.lookup "project_uuid"
      = some p := by
  have hex := extractProjectResourceId_roundtrip o p ho hp ho' hp'
  refine ⟨hex, ?_, ?_, ?_⟩ <;>
    simp [projectResource.ImportState, hex, hget, hpro, hprp, List.lookup,
      hasError]

/-- C5 witness: the theorem applied to the concrete pair
(org-1, proj-1) and the sample GET-by-UUID oracle. -/
theorem C5_composite_id_roundtrip_witness :
    ("org-1" : String) ≠ "" ∧ ("proj-1" : String) ≠ "" ∧
    '/' ∉ "org-1".data ∧ '/' ∉ "proj-1".data ∧
    sampleRemoteProject.organizationUuid = "org-1" ∧
    sampleRemoteProject.projectUuid = "proj-1" ∧
    sampleGetProject "proj-1" = Except.ok sampleRemoteProject ∧
    (extractProjectResourceId (getProjectResourceId "org-1" "proj-1")
        = Except.ok ("org-1", "proj-1") ∧
      hasError (projectResource.ImportState sampleGetProject
        (getProjectResourceId "org-1" "proj-1")).diagnostics = false ∧
      (projectResource.ImportState sampleGetProject
        (getProjectResourceId "org-1" "proj-1")).attributes.lookup
          "organization_uuid" = some "org-1" ∧
      (projectResource.ImportState sampleGetProject
        (getProjectResourceId "org-1" "proj-1")).attributes.lookup
          "project_uuid" = some "proj-1") :=
  ⟨by decide, by decide, by decide, by decide, rfl, rfl, rfl,
   C5_composite_id_roundtrip "org-1" "proj-1" (by decide) (by decide)
     (by decide) (by decide) sampleGetProject sampleRemoteProject rfl rfl rfl⟩

/-- C6: For every import ID that does not match the fixed pattern, parse
extraction fails, and ImportState surfaces an error diagnostic whose
detail names the expected pattern, performs zero transport calls and
writes no attributes. -/
theorem C6_malformed_import_id (input : String) (e : String)
    (getProject : String → Except String RemoteProject)
    (h : extractProjectResourceId input = Except.error e) :
    (projectResource.ImportState getProject input).apiCalls = [] ∧
    (projectResource.ImportState getProject input).attributes = [] ∧
    hasError (projectResource.ImportState getProject input).diagnostics
      = true ∧
    (projectResource.ImportState getProject input).diagnostics =
      [{ severity := Severity.error
         summary := "Error extracting resource ID"
         detail := "Could not extract resource ID, unexpected error: "
           ++ ("could not extract resource ID: "
           ++ ("the input does not match the pattern "
           ++ orgProjectsPattern)) }] := by
  have he : e = "could not extract resource ID: "
      ++ ("the input does not match the pattern " ++ orgProjectsPattern) := by
    unfold extractProjectResourceId extractStringsOrgProjects at h
    cases hm : matchOrgProjectsId input with
    | some g => rw [hm] at h; exact absurd h (by simp)
    | none =>
      rw [hm] at h
      simpa using h.symm
  unfold projectResource.ImportState
  rw [h, he]
  exact ⟨rfl, rfl, rfl, rfl⟩

/-- C6 witness: the theorem applied to the malformed import ID
"not-a-valid-id", with a transport oracle that would answer any call. -/
theorem C6_malformed_import_id_witness :
    extractProjectResourceId "not-a-valid-id" =
      Except.error ("could not extract resource ID: "
        ++ ("the input does not match the pattern " ++ orgProjectsPattern)) ∧
    ((projectResource.ImportState
        (fun _ => Except.ok sampleRemoteProject) "not-a-valid-id").apiCalls
        = [] ∧
      (projectResource.ImportState
        (fun _ => Except.ok sampleRemoteProject) "not-a-valid-id").attributes
        = [] ∧
      hasError (projectResource.ImportState
        (fun _ => Except.ok sampleRemoteProject) "not-a-valid-id").diagnostics
        = true ∧
      (projectResource.ImportState
          (fun _ => Except.ok sampleRemoteProject) "not-a-valid-id").diagnostics =
        [{ severity := Severity.error
           summary := "Error extracting resource ID"
           detail := "Could not extract resource ID, unexpected error: "
             ++ ("could not extract resource ID: "
             ++ ("the input does not match the pattern "
             ++ orgProjectsPattern)) }]) :=
  ⟨rfl,
   C6_malformed_import_id "not-a-valid-id"
     ("could not extract resource ID: "
       ++ ("the input does not match the pattern " ++ orgProjectsPattern))
     (fun _ => Except.ok sampleRemoteProject) rfl⟩

/-- The keys that can occur in a serialized create-project body, each
optional one tied to its field being set. -/
theorem mem_createProject_keys {s : String} {r : CreateProject}
    (h : s ∈ r.toJsonFields.map Prod.fst) :
    s = "name" ∨ s = "type" ∨ s = "dbtConnection" ∨ s = "dbtVersion" ∨
    (s = "organizationWarehouseCredentialsUuid" ∧
      r.organizationWarehouseCredentialsUUID.isSome) ∨
    (s = "warehouseConnection" ∧ r.warehouseConnection.isSome) ∨
    (s = "upstreamProjectUuid" ∧ r.upstreamProjectUUID.isSome) ∨
    (s = "copyWarehouseConnectionFromUpstreamProject" ∧
      r.copyWarehouseConnectionFromUpstreamProject.isSome) := by
  rcases r with ⟨n, t, dc, dv, owc, w, up, cp⟩
  rcases owc <;> rcases w <;> rcases up <;> rcases cp <;>
    simp_all [CreateProject.toJsonFields, optStrField, optBoolField]

/-- The keys that can occur in a serialized dbt connection config, each
optional one tied to its field being set. -/
theorem mem_dbtConfig_keys {s : String} {c : DbtGithubProjectConfig}
    (h : s ∈ c.toJsonFields.map Prod.fst) :
    s = "type" ∨ s = "authorization_method" ∨
    (s = "personal_access_token" ∧ c.personalAccessToken.isSome) ∨
    (s = "installation_id" ∧ c.installationID.isSome) ∨
    s = "repository" ∨ s = "branch" ∨ s = "project_sub_path" ∨
    (s = "host_domain" ∧ c.hostDomain.isSome) ∨
    (s = "target" ∧ c.target.isSome) ∨
    (s = "environment" ∧ ¬ c.environment.isEmpty) ∨
    (s = "selector" ∧ c.selector.isSome) := by
  rcases c with ⟨t, am, pat, iid, rep, br, psp, hd, tg, env, sel⟩
  rcases pat <;> rcases iid <;> rcases hd <;> rcases tg <;> rcases env <;>
    rcases sel <;>
    simp_all [DbtGithubProjectConfig.toJsonFields, optStrField]

/-- C7: For every project Create plan whose request building succeeds, the
serialized create-request body contains only fields explicitly set in the
plan: each null optional field (organization_warehouse_credentials_uuid,
upstream_project_uuid, warehouse_connection, and the dbt connection
personal_access_token, host_domain and target) is omitted from the JSON
body rather than sent as an empty value, and when upstream_project_uuid is
set the body includes the key upstreamProjectUuid with the planned
value. -/
theorem C7_create_body_omits_null_fields
    (parseJson : String → Except String JObj)
    (plan : ProjectResourceModel) (req : CreateProject)
    (h : buildCreateProjectRequest parseJson plan = Except.ok req) :
    (plan.organizationWarehouseCredentialsUuid.isNull = true →
      "organizationWarehouseCredentialsUuid" ∉ req.toJsonFields.map Prod.fst) ∧
    (plan.upstreamProjectUuid.isNull = true →
      "upstreamProjectUuid" ∉ req.toJsonFields.map Prod.fst) ∧
    (plan.warehouseConnection = none →
      "warehouseConnection" ∉ req.toJsonFields.map Prod.fst) ∧
    (∀ d, plan.dbtConnection = some d →
      ∃ c, req.dbtConnection = some c ∧
        (d.personalAccessToken.isNull = true →
          "personal_access_token" ∉ c.toJsonFields.map Prod.fst) ∧
        (d.hostDomain.isNull = true →
          "host_domain" ∉ c.toJsonFields.map Prod.fst) ∧
        (d.target.isNull = true →
          "target" ∉ c.toJsonFields.map Prod.fst)) ∧
    (plan.upstreamProjectUuid.isNull = false →
      ("upstreamProjectUuid", JVal.str plan.upstreamProjectUuid.valueString)
        ∈ req.toJsonFields) := by
  have hreq : req.dbtConnection = buildDbtConnection plan ∧
      req.organizationWarehouseCredentialsUUID =
        (if plan.organizationWarehouseCredentialsUuid.isNull then none
         else some plan.organizationWarehouseCredentialsUuid.valueString) ∧
      req.upstreamProjectUUID =
        (if plan.upstreamProjectUuid.isNull then none
         else some plan.upstreamProjectUuid.valueString) ∧
      req.copyWarehouseConnectionFromUpstreamProject = none ∧
      (plan.warehouseConnection = none → req.warehouseConnection = none) := by
    unfold buildCreateProjectRequest at h
    split at h
    next hwc =>
      simp only [Except.ok.injEq] at h
      subst h
      simp
    next wc hwc =>
      split at h
      next msg hpj => exact absurd h (by simp)
      next km hpj =>
        simp only [Except.ok.injEq] at h
        subst h
        simp [hwc]
  obtain ⟨hdc, howc, hup, hcp, hwcn⟩ := hreq
  refine ⟨?_, ?_, ?_, ?_, ?_⟩
  · intro hnull hmem
    have h1 : req.organizationWarehouseCredentialsUUID = none := by
      rw [howc]
      simp [hnull]
    rcases mem_createProject_keys hmem with
      hk | hk | hk | hk | ⟨hk, hs⟩ | ⟨hk, hs⟩ | ⟨hk, hs⟩ | ⟨hk, hs⟩
    · exact absurd hk (by decide)
    · exact absurd hk (by decide)
    · exact absurd hk (by decide)
    · exact absurd hk (by decide)
    · rw [h1] at hs
      simp at hs
    · exact absurd hk (by decide)
    · exact absurd hk (by decide)
    · exact absurd hk (by decide)
  · intro hnull hmem
    have h1 : req.upstreamProjectUUID = none := by
      rw [hup]
      simp [hnull]
    rcases mem_createProject_keys hmem with
      hk | hk | hk | hk | ⟨hk, hs⟩ | ⟨hk, hs⟩ | ⟨hk, hs⟩ | ⟨hk, hs⟩
    · exact absurd hk (by decide)
    · exact absurd hk (by decide)
    · exact absurd hk (by decide)
    · exact absurd hk (by decide)
    · exact absurd hk (by decide)
    · exact absurd hk (by decide)
    · rw [h1] at hs
      simp at hs
    · exact absurd hk (by decide)
  · intro hwnone hmem
    have h1 : req.warehouseConnection = none := hwcn hwnone
    rcases mem_createProject_keys hmem with
      hk | hk | hk | hk | ⟨hk, hs⟩ | ⟨hk, hs⟩ | ⟨hk, hs⟩ | ⟨hk, hs⟩
    · exact absurd hk (by decide)
    · exact absurd hk (by decide)
    · exact absurd hk (by decide)
    · exact absurd hk (by decide)
    · exact absurd hk (by decide)
    · rw [h1] at hs
      simp at hs
    · exact absurd hk (by decide)
    · exact absurd hk (by decide)
  · intro d hd
    have hdc' : req.dbtConnection = some
        { type := dbtProjectTypeGithub
          authorizationMethod := d.authorizationMethod.valueString
          repository := d.repository.valueString
          branch := d.branch.valueString
          projectSubPath := d.projectSubPath.valueString
          personalAccessToken :=
            if d.personalAccessToken.isNull then none
            else some d.personalAccessToken.valueString
          hostDomain :=
            if d.hostDomain.isNull then none
            else some d.hostDomain.valueString
          target :=
            if d.target.isNull then none else some d.target.valueString } := by
      rw [hdc, buildDbtConnection, hd]
      rfl
    refine ⟨_, hdc', ?_, ?_, ?_⟩
    · intro hnull hmem
      rcases mem_dbtConfig_keys hmem with
        hk | hk | ⟨hk, hs⟩ | ⟨hk, hs⟩ | hk | hk | hk | ⟨hk, hs⟩ | ⟨hk, hs⟩ |
        ⟨hk, hs⟩ | ⟨hk, hs⟩
      · exact absurd hk (by decide)
      · exact absurd hk (by decide)
      · simp [hnull] at hs
      · exact absurd hk (by decide)
      · exact absurd hk (by decide)
      · exact absurd hk (by decide)
      · exact absurd hk (by decide)
      · exact absurd hk (by decide)
      · exact absurd hk (by decide)
      · exact absurd hk (by decide)
      · exact absurd hk (by decide)
    · intro hnull hmem
      rcases mem_dbtConfig_keys hmem with
        hk | hk | ⟨hk, hs⟩ | ⟨hk, hs⟩ | hk | hk | hk | ⟨hk, hs⟩ | ⟨hk, hs⟩ |
        ⟨hk, hs⟩ | ⟨hk, hs⟩
      · exact absurd hk (by decide)
      · exact absurd hk (by decide)
      · exact absurd hk (by decide)
      · exact absurd hk (by decide)
      · exact absurd hk (by decide)
      · exact absurd hk (by decide)
      · exact absurd hk (by decide)
      · simp [hnull] at hs
      · exact absurd hk (by decide)
      · exact absurd hk (by decide)
      · exact absurd hk (by decide)
    · intro hnull hmem
      rcases mem_dbtConfig_keys hmem with
        hk | hk | ⟨hk, hs⟩ | ⟨hk, hs⟩ | hk | hk | hk | ⟨hk, hs⟩ | ⟨hk, hs⟩ |
        ⟨hk, hs⟩ | ⟨hk, hs⟩
      · exact absurd hk (by decide)
      · exact absurd hk (by decide)
      · exact absurd hk (by decide)
      · exact absurd hk (by decide)
      · exact absurd hk (by decide)
      · exact absurd hk (by decide)
      · exact absurd hk (by decide)
      · exact absurd hk (by decide)
      · simp [hnull] at hs
      · exact absurd hk (by decide)
      · exact absurd hk (by decide)
  · intro hset
    have h1 : req.upstreamProjectUUID
        = some plan.upstreamProjectUuid.valueString := by
      rw [hup]
      simp [hset]
    rcases req with ⟨n, t, dcf, dv, owcf, wf, upf, cpf⟩
    simp only at h1
    subst h1
    simp [CreateProject.toJsonFields, optStrField]

/-- C7 witness: the theorem applied to the concrete preview-project plan
(upstream set, every other optional field null, no warehouse block). -/
theorem C7_create_body_omits_null_fields_witness :
    (∃ req, buildCreateProjectRequest rejectingJsonDecoder samplePreviewPlan
      = Except.ok req) ∧
    samplePreviewPlan.organizationWarehouseCredentialsUuid.isNull = true ∧
    samplePreviewPlan.warehouseConnection = none ∧
    samplePreviewPlan.upstreamProjectUuid.isNull = false ∧
    (∀ req, buildCreateProjectRequest rejectingJsonDecoder samplePreviewPlan
        = Except.ok req →
      "organizationWarehouseCredentialsUuid" ∉ req.toJsonFields.map Prod.fst ∧
      "warehouseConnection" ∉ req.toJsonFields.map Prod.fst ∧
      (∃ c, req.dbtConnection = some c ∧
        "personal_access_token" ∉ c.toJsonFields.map Prod.fst ∧
        "host_domain" ∉ c.toJsonFields.map Prod.fst ∧
        "target" ∉ c.toJsonFields.map Prod.fst) ∧
      ("upstreamProjectUuid", JVal.str "proj-1") ∈ req.toJsonFields) := by
  refine ⟨⟨_, rfl⟩, rfl, rfl, rfl, ?_⟩
  intro req hreq
  have hmain := C7_create_body_omits_null_fields rejectingJsonDecoder
    samplePreviewPlan req hreq
  obtain ⟨c, hc, hcp, hch, hct⟩ :=
    hmain.2.2.2.1 sampleDbtConnectionModel rfl
  exact ⟨hmain.1 rfl, hmain.2.2.1 rfl,
    ⟨c, hc, hcp rfl, hch rfl, hct rfl⟩, hmain.2.2.2.2 rfl⟩

end Lightdash
